import Mathlib

/- Verification development for the queue-ticket-service repository.

   The ticket-counter engine is embedded shallowly: the storage adapters
   (InMemoryStorageAdapter / RedisStorageAdapter) become an explicit key-value
   state, and the repository, service and model methods become store-passing
   functions. Fallible JavaScript methods (throw / reject) are modelled with
   Except. JavaScript numeric coercions that matter are modelled explicitly:
   null + 1 evaluates to 1 (null coerces to 0), and the remainder operator
   keeps the sign of the dividend. -/

namespace QueueTicket

/-- Storage state shared by the adapters: a key-value map from string keys to
the integers the engine stores. A missing key reads as null (none). -/
abbrev Store := String → Option Int

/-- Adapter set operation: overwrites or creates the value for a key
(InMemoryStorageAdapter.set / RedisStorageAdapter.set). -/
def Store.set (s : Store) (key : String) (value : Int) : Store :=
  fun k => if k = key then some value else s k

/-- Storage with no keys, the state before any ticket was ever issued. -/
def emptyStore : Store := fun _ => none

/-- Shared constant MAX_TICKET_NUMBER = 9999 of QueueService, QueueRepository
and the Ticket model. -/
def MAX_TICKET_NUMBER : Int := 9999

/-- JavaScript remainder operator for a positive modulus: the result keeps the
sign of the dividend (truncated division), unlike the emod of Int. -/
def jsMod (a b : Int) : Int :=
  if a < 0 then -((-a) % b) else a % b

/-- JavaScript String.prototype.padStart: pads on the left with copies of c up
to length n; a string already at least n characters long is returned as is. -/
def padStart (s : String) (n : Nat) (c : Char) : String :=
  String.mk (List.replicate (n - s.length) c) ++ s

/-- Key construction of QueueRepository, source name _getQueueKey: the template
literal producing queue:, the queueId, then :ticket. -/
def getQueueKey (queueId : String) : String :=
  "queue:" ++ queueId ++ ":ticket"

/-- QueueRepository.getCurrentTicketNumber: throws when queueId is falsy (the
empty string); otherwise reads the adapter value for the queue key and returns
null when absent, else parseInt of the stored value, which is the value itself
for the integers this service stores. -/
def getCurrentTicketNumber (s : Store) (queueId : String) :
    Except String (Option Int) :=
  if queueId = "" then Except.error "Queue ID is required"
  else Except.ok (s (getQueueKey queueId))

/-- QueueRepository.incrementTicketNumber: throws when queueId is falsy or the
queue has no stored value; otherwise stores currentNumber + 1, reset to 0 when
it exceeds MAX_TICKET_NUMBER, and returns the new number. -/
def incrementTicketNumber (s : Store) (queueId : String) :
    Except String (Store × Int) :=
  if queueId = "" then Except.error "Queue ID is required"
  else
    match s (getQueueKey queueId) with
    | none => Except.error ("Queue " ++ queueId ++ " does not exist")
    | some currentNumber =>
        let nextNumber := currentNumber + 1
        let nextNumber := if nextNumber > MAX_TICKET_NUMBER then 0 else nextNumber
        Except.ok (Store.set s (getQueueKey queueId) nextNumber, nextNumber)

/-- QueueRepository.resetTicketNumber: throws when queueId is falsy, otherwise
unconditionally stores 0 under the queue key and reports success. -/
def resetTicketNumber (s : Store) (queueId : String) :
    Except String (Store × Bool) :=
  if queueId = "" then Except.error "Queue ID is required"
  else Except.ok (Store.set s (getQueueKey queueId) 0, true)

/-- QueueRepository.createQueue: throws when queueId is falsy or the queue
already has a stored value, otherwise stores 0. -/
def createQueue (s : Store) (queueId : String) : Except String (Store × Bool) :=
  if queueId = "" then Except.error "Queue ID is required"
  else
    match s (getQueueKey queueId) with
    | some _ => Except.error ("Queue " ++ queueId ++ " already exists")
    | none => Except.ok (Store.set s (getQueueKey queueId) 0, true)

/-- QueueService.formatTicketNumber: number.toString().padStart(4, zero). There
is no range check and no modulo: the decimal rendering of the argument is
left-padded to at least four characters, whatever the argument is. -/
def formatTicketNumber (number : Int) : String :=
  padStart (toString number) 4 '0'

/-- Modelled from the spec: queueRepository.updateTicketNumber is called by
QueueService.getTicket and QueueService.resetQueue but is defined by no
repository class in the repository. Per the Counter Store contract of the spec
(section 4.1, set overwrites or creates the value for the key, under the
repository keying convention) it persists the given number under the queue key
and reports success. -/
def updateTicketNumber (s : Store) (queueId : String) (number : Int) :
    Store × Bool :=
  (Store.set s (getQueueKey queueId) number, true)

/-- QueueService.getTicket: reads the current number through the repository,
advances it by (currentNumber + 1) % (MAX_TICKET_NUMBER + 1) — JavaScript
evaluates null + 1 to 1 for a queue with no stored value, modelled by getD 0 —
persists the new number through updateTicketNumber, and returns it formatted;
any repository error is caught and rethrown as a generic failure. -/
def getTicket (s : Store) (queueId : String) : Except String (Store × String) :=
  match getCurrentTicketNumber s queueId with
  | Except.error _ => Except.error ("Failed to get ticket for queue " ++ queueId)
  | Except.ok v =>
      let currentNumber := jsMod (v.getD 0 + 1) (MAX_TICKET_NUMBER + 1)
      let s2 := (updateTicketNumber s queueId currentNumber).1
      Except.ok (s2, formatTicketNumber currentNumber)

/-- QueueService.resetQueue: persists 0 through updateTicketNumber and reports
success. -/
def resetQueue (s : Store) (queueId : String) : Store × Bool :=
  updateTicketNumber s queueId 0

/-- QueueService.getQueueStatus: reads the current number and returns the store
untouched (the source method never calls set) together with the formatted
number (currentTicket) and the raw number (ticketCount). For a queue with no
stored value the repository returns null and formatTicketNumber(null) raises a
TypeError (null has no toString), which the catch block rethrows as a generic
failure, so the absent case is an error, not a result. -/
def getQueueStatus (s : Store) (queueId : String) :
    Except String (Store × String × Int) :=
  match getCurrentTicketNumber s queueId with
  | Except.error _ => Except.error ("Failed to get status for queue " ++ queueId)
  | Except.ok none => Except.error ("Failed to get status for queue " ++ queueId)
  | Except.ok (some currentNumber) =>
      Except.ok (s, formatTicketNumber currentNumber, currentNumber)

/-- Ticket record of the Ticket model: queue identifier, numeric number and its
formatted rendering. The createdAt wall-clock field is irrelevant to the
claims and omitted. -/
structure Ticket where
  queueId : String
  number : Int
  formattedNumber : String

/-- Ticket.formatNumber: rejects numbers outside [MIN_TICKET_NUMBER,
MAX_TICKET_NUMBER] with an error, otherwise pads the decimal rendering to four
characters. -/
def Ticket.formatNumber (number : Int) : Except String String :=
  if number < 0 ∨ number > MAX_TICKET_NUMBER then
    Except.error ("Invalid ticket number: " ++ toString number)
  else Except.ok (padStart (toString number) 4 '0')

/-- Ticket constructor: requires a truthy queueId and a number within
[MIN_TICKET_NUMBER, MAX_TICKET_NUMBER]; on success the formatted field is
computed by Ticket.formatNumber, whose own range check cannot fire there. -/
def Ticket.create (queueId : String) (number : Int) : Except String Ticket :=
  if queueId = "" then Except.error "Queue ID is required"
  else if number < 0 ∨ number > MAX_TICKET_NUMBER then
    Except.error "Ticket number must be between 0 and 9999"
  else
    (Ticket.formatNumber number).map fun f =>
      { queueId := queueId, number := number, formattedNumber := f }

/-- Ticket.getNextNumber: rejects a current number outside the valid range,
otherwise returns 0 after MAX_TICKET_NUMBER and the successor elsewhere. -/
def Ticket.getNextNumber (currentNumber : Int) : Except String Int :=
  if currentNumber < 0 ∨ currentNumber > MAX_TICKET_NUMBER then
    Except.error "Current number must be between 0 and 9999"
  else Except.ok (if currentNumber = MAX_TICKET_NUMBER then 0 else currentNumber + 1)

/-- Ticket.createNext: computes the next number and builds a new Ticket for it
through the validating constructor. -/
def Ticket.createNext (queueId : String) (currentNumber : Int) :
    Except String Ticket :=
  (Ticket.getNextNumber currentNumber).bind fun nextNumber =>
    Ticket.create queueId nextNumber

/-- RedisStorageAdapter.increment delegates to the Redis INCR command
(client.incr): INCR reads the key (absent counts as 0), adds one, stores the
new integer and returns it; it applies no upper bound and no modulo. -/
def redisIncrement (s : Store) (key : String) : Store × Int :=
  let newValue := (s key).getD 0 + 1
  (Store.set s key newValue, newValue)

/-- Read-and-compute phase of QueueService.getTicket: everything before the
persisting write. The await boundary between the repository read and the write
lets another caller run between the two phases. -/
def issueReadPhase (s : Store) (queueId : String) : Int :=
  jsMod ((s (getQueueKey queueId)).getD 0 + 1) (MAX_TICKET_NUMBER + 1)

/-- Write phase of QueueService.getTicket: the persisting set of the computed
next number. -/
def issueWritePhase (s : Store) (queueId : String) (nextNumber : Int) : Store :=
  Store.set s (getQueueKey queueId) nextNumber

/-- Range invariant of spec section 3: every stored counter lies in the closed
interval from 0 to MAX_TICKET_NUMBER. -/
def InRange (s : Store) : Prop :=
  ∀ k v, s k = some v → 0 ≤ v ∧ v ≤ MAX_TICKET_NUMBER

/-- Formatting contract in the words of the spec, for claim C5: the decimal
rendering of n mod 10000 — mathematical modulo, hence a value in [0, 9999] —
left-padded with zeros to width 4. Declared only to be compared against the
formatTicketNumber of the source. -/
def specFormatNumber (n : Int) : String :=
  padStart (toString (n % 10000)) 4 '0'

/-! Helper lemmas: evaluation rules for the store and for each operation,
established once and shared by the claim theorems below. -/

theorem max_succ : MAX_TICKET_NUMBER + 1 = 10000 := by decide

theorem store_set_same (s : Store) (k : String) (v : Int) :
    Store.set s k v k = some v := by
  unfold Store.set
  rw [if_pos rfl]

theorem store_set_other (s : Store) (k k2 : String) (v : Int) (h : k2 ≠ k) :
    Store.set s k v k2 = s k2 := by
  unfold Store.set
  rw [if_neg h]

theorem inRange_set (s : Store) (k : String) (v : Int) (hs : InRange s)
    (h0 : 0 ≤ v) (h1 : v ≤ MAX_TICKET_NUMBER) : InRange (Store.set s k v) := by
  intro k2 w hw
  by_cases hk : k2 = k
  · subst hk
    rw [store_set_same] at hw
    have hvw := Option.some.inj hw
    subst hvw
    exact ⟨h0, h1⟩
  · rw [store_set_other _ _ _ _ hk] at hw
    exact hs k2 w hw

theorem inRange_empty : InRange emptyStore := by
  intro k v h
  exact Option.noConfusion h

theorem jsMod_of_nonneg (a b : Int) (h : 0 ≤ a) : jsMod a b = a % b := by
  unfold jsMod
  rw [if_neg (by omega)]

theorem jsMod_10000_bounds (a : Int) (h : 0 ≤ a) :
    0 ≤ jsMod a 10000 ∧ jsMod a 10000 ≤ 9999 := by
  unfold jsMod
  split <;> omega

theorem succ_wrap (n : Int) (h0 : 0 ≤ n) (h1 : n ≤ MAX_TICKET_NUMBER) :
    (n + 1) % 10000 = if n = MAX_TICKET_NUMBER then 0 else n + 1 := by
  unfold MAX_TICKET_NUMBER at *
  split <;> omega

theorem getQueueKey_inj (a b : String) (h : getQueueKey a = getQueueKey b) :
    a = b := by
  have hd : (("queue:" ++ a) ++ ":ticket").data = (("queue:" ++ b) ++ ":ticket").data := by
    unfold getQueueKey at h
    rw [h]
  simp only [String.data_append] at hd
  have h3 := List.append_cancel_right hd
  have h4 := List.append_cancel_left h3
  cases a
  cases b
  exact congrArg String.mk h4

theorem getTicket_none (s : Store) (q : String) (hq : q ≠ "")
    (hn : s (getQueueKey q) = none) :
    getTicket s q = Except.ok (Store.set s (getQueueKey q) 1, formatTicketNumber 1) := by
  unfold getTicket getCurrentTicketNumber updateTicketNumber
  rw [if_neg hq, hn]
  rfl

theorem getTicket_some (s : Store) (q : String) (n : Int) (hq : q ≠ "")
    (hn : s (getQueueKey q) = some n) :
    getTicket s q = Except.ok (Store.set s (getQueueKey q) (jsMod (n + 1) 10000),
      formatTicketNumber (jsMod (n + 1) 10000)) := by
  unfold getTicket getCurrentTicketNumber updateTicketNumber
  rw [if_neg hq, hn, max_succ]
  rfl

theorem getTicket_empty_id (s : Store) :
    getTicket s "" = Except.error "Failed to get ticket for queue " := by
  unfold getTicket getCurrentTicketNumber
  rw [if_pos rfl]
  rfl

theorem increment_none (s : Store) (q : String) (hq : q ≠ "")
    (hn : s (getQueueKey q) = none) :
    incrementTicketNumber s q = Except.error ("Queue " ++ q ++ " does not exist") := by
  unfold incrementTicketNumber
  rw [if_neg hq, hn]

theorem increment_some (s : Store) (q : String) (n : Int) (hq : q ≠ "")
    (hn : s (getQueueKey q) = some n) :
    incrementTicketNumber s q = Except.ok
      (Store.set s (getQueueKey q) (if n + 1 > MAX_TICKET_NUMBER then 0 else n + 1),
       if n + 1 > MAX_TICKET_NUMBER then 0 else n + 1) := by
  unfold incrementTicketNumber
  rw [if_neg hq, hn]

theorem reset_ok (s : Store) (q : String) (hq : q ≠ "") :
    resetTicketNumber s q = Except.ok (Store.set s (getQueueKey q) 0, true) := by
  unfold resetTicketNumber
  rw [if_neg hq]

theorem create_none (s : Store) (q : String) (hq : q ≠ "")
    (hn : s (getQueueKey q) = none) :
    createQueue s q = Except.ok (Store.set s (getQueueKey q) 0, true) := by
  unfold createQueue
  rw [if_neg hq, hn]

theorem create_some (s : Store) (q : String) (n : Int) (hq : q ≠ "")
    (hn : s (getQueueKey q) = some n) :
    createQueue s q = Except.error ("Queue " ++ q ++ " already exists") := by
  unfold createQueue
  rw [if_neg hq, hn]

theorem status_none (s : Store) (q : String) (hq : q ≠ "")
    (hn : s (getQueueKey q) = none) :
    getQueueStatus s q = Except.error ("Failed to get status for queue " ++ q) := by
  unfold getQueueStatus getCurrentTicketNumber
  rw [if_neg hq, hn]

theorem status_some (s : Store) (q : String) (n : Int) (hq : q ≠ "")
    (hn : s (getQueueKey q) = some n) :
    getQueueStatus s q = Except.ok (s, formatTicketNumber n, n) := by
  unfold getQueueStatus getCurrentTicketNumber
  rw [if_neg hq, hn]

theorem getTicket_eq_phases (s : Store) (q : String) (hq : q ≠ "") :
    getTicket s q = Except.ok (issueWritePhase s q (issueReadPhase s q),
      formatTicketNumber (issueReadPhase s q)) := by
  unfold getTicket getCurrentTicketNumber updateTicketNumber issueWritePhase issueReadPhase
  rw [if_neg hq]

theorem max_eq : MAX_TICKET_NUMBER = 9999 := rfl

theorem getNextNumber_ok (n : Int) (h0 : 0 ≤ n) (h1 : n ≤ MAX_TICKET_NUMBER) :
    Ticket.getNextNumber n
      = Except.ok (if n = MAX_TICKET_NUMBER then 0 else n + 1) := by
  unfold Ticket.getNextNumber
  rw [if_neg (by unfold MAX_TICKET_NUMBER at *; omega)]

theorem ticket_create_ok (q : String) (n : Int) (hq : q ≠ "")
    (h0 : 0 ≤ n) (h1 : n ≤ MAX_TICKET_NUMBER) :
    Ticket.create q n = Except.ok
      { queueId := q, number := n, formattedNumber := formatTicketNumber n } := by
  have hcond : ¬(n < 0 ∨ n > MAX_TICKET_NUMBER) := by
    unfold MAX_TICKET_NUMBER at *
    omega
  unfold Ticket.create Ticket.formatNumber
  rw [if_neg hq, if_neg hcond, if_neg hcond]
  rfl

theorem createNext_eq (q : String) (n m : Int)
    (h : Ticket.getNextNumber n = Except.ok m) :
    Ticket.createNext q n = Ticket.create q m := by
  unfold Ticket.createNext
  rw [h]
  rfl

/-! Claim theorems. -/

/-- Claim C1: the claim fails on the code. For a queueId that was never issued
a ticket, QueueRepository.incrementTicketNumber throws (Queue does not exist)
instead of returning a ticket, and QueueService.getTicket evaluates
(null + 1) % 10000 to 1, persisting 1 and returning 0001 — not 0000 with 0
persisted as the claim and the repository's own unit and integration tests
state. -/
theorem first_issue_not_zero :
    incrementTicketNumber emptyStore "queue1"
        = Except.error "Queue queue1 does not exist"
    ∧ getTicket emptyStore "queue1"
        = Except.ok (Store.set emptyStore (getQueueKey "queue1") 1, "0001")
    ∧ Store.set emptyStore (getQueueKey "queue1") 1 (getQueueKey "queue1") = some 1
    ∧ "0001" ≠ "0000" :=
  ⟨rfl, rfl, by decide, by decide⟩

/-- Claim C2: confirmed. For a stored counter n with 0 ≤ n ≤ 9999 and a
non-empty queueId, one issue call — through QueueService.getTicket or through
QueueRepository.incrementTicketNumber — persists exactly (n + 1) mod 10000 and
returns it (formatted by the service); Ticket.getNextNumber agrees; and at
n = 9999 the result is 0 with formatted string 0000. -/
theorem issue_advances_mod10000 (s : Store) (q : String) (n : Int)
    (hq : q ≠ "") (hn : s (getQueueKey q) = some n)
    (h0 : 0 ≤ n) (h1 : n ≤ MAX_TICKET_NUMBER) :
    getTicket s q = Except.ok (Store.set s (getQueueKey q) ((n + 1) % 10000),
        formatTicketNumber ((n + 1) % 10000))
    ∧ incrementTicketNumber s q
        = Except.ok (Store.set s (getQueueKey q) ((n + 1) % 10000), (n + 1) % 10000)
    ∧ Ticket.getNextNumber n = Except.ok ((n + 1) % 10000)
    ∧ (n = MAX_TICKET_NUMBER →
        (n + 1) % 10000 = 0 ∧ formatTicketNumber ((n + 1) % 10000) = "0000") := by
  have hmax : (0:Int) ≤ MAX_TICKET_NUMBER := by decide
  have hjs : jsMod (n + 1) 10000 = (n + 1) % 10000 := jsMod_of_nonneg _ _ (by omega)
  have hwrap := succ_wrap n h0 h1
  refine ⟨?_, ?_, ?_, ?_⟩
  · rw [getTicket_some s q n hq hn, hjs]
  · rw [increment_some s q n hq hn, hwrap]
    have hif : (if n + 1 > MAX_TICKET_NUMBER then (0:Int) else n + 1)
        = if n = MAX_TICKET_NUMBER then 0 else n + 1 := by
      unfold MAX_TICKET_NUMBER
      unfold MAX_TICKET_NUMBER at h1
      split <;> split <;> omega
    rw [hif]
  · unfold Ticket.getNextNumber
    rw [if_neg (by omega), hwrap]
  · intro hend
    subst hend
    refine ⟨?_, ?_⟩ <;> rw [hwrap] <;> decide

/-- Claim C2 witness: a queue with stored counter 41 yields ticket 0042 with 42
persisted, and the 9999 case wraps to 0000. -/
theorem issue_advances_mod10000_witness :
    ("a" : String) ≠ ""
    ∧ Store.set emptyStore (getQueueKey "a") 41 (getQueueKey "a") = some 41
    ∧ (0:Int) ≤ 41 ∧ (41:Int) ≤ MAX_TICKET_NUMBER
    ∧ (getTicket (Store.set emptyStore (getQueueKey "a") 41) "a"
        = Except.ok (Store.set (Store.set emptyStore (getQueueKey "a") 41) (getQueueKey "a")
            ((41 + 1) % 10000),
          formatTicketNumber ((41 + 1) % 10000))
       ∧ incrementTicketNumber (Store.set emptyStore (getQueueKey "a") 41) "a"
        = Except.ok (Store.set (Store.set emptyStore (getQueueKey "a") 41) (getQueueKey "a")
            ((41 + 1) % 10000), (41 + 1) % 10000)
       ∧ Ticket.getNextNumber 41 = Except.ok ((41 + 1) % 10000)
       ∧ ((41:Int) = MAX_TICKET_NUMBER →
            ((41:Int) + 1) % 10000 = 0 ∧ formatTicketNumber ((41 + 1) % 10000) = "0000")) :=
  ⟨by decide, by decide, by decide, by decide,
    issue_advances_mod10000 (Store.set emptyStore (getQueueKey "a") 41) "a" 41
      (by decide) (by decide) (by decide) (by decide)⟩

/-- Claim C3: the claim fails on the code: the issue path is an unprotected
read-then-write, not an atomic read-modify-write. Two interleaved getTicket
callers for the same queue (counter at 5) that both execute the read phase
before either write phase compute the same next number 6, both return the
duplicate ticket 0006, and the final store holds 6 — one issued number is
lost. The first conjunct ties the two phases to getTicket itself; the last
conjunct shows that only the interleaving is at fault, since a caller reading
after the first write would compute 7. -/
theorem interleaved_issue_duplicates :
    getTicket (Store.set emptyStore (getQueueKey "q") 5) "q"
        = Except.ok (issueWritePhase (Store.set emptyStore (getQueueKey "q") 5) "q"
            (issueReadPhase (Store.set emptyStore (getQueueKey "q") 5) "q"),
          formatTicketNumber (issueReadPhase (Store.set emptyStore (getQueueKey "q") 5) "q"))
    ∧ issueReadPhase (Store.set emptyStore (getQueueKey "q") 5) "q" = 6
    ∧ formatTicketNumber 6 = "0006"
    ∧ issueWritePhase (issueWritePhase (Store.set emptyStore (getQueueKey "q") 5) "q" 6) "q" 6
        (getQueueKey "q") = some 6
    ∧ issueReadPhase (issueWritePhase (Store.set emptyStore (getQueueKey "q") 5) "q" 6) "q" = 7 :=
  ⟨getTicket_eq_phases _ _ (by decide), by decide, by decide, by decide, by decide⟩

/-- Claim C4: confirmed. Starting from a store whose counters all lie in
[0, 9999], every store produced by a successful engine operation — repository
increment, reset, create, or the service issue path — again has all counters
in [0, 9999]. -/
theorem persisted_values_in_range (s : Store) (q : String) (hs : InRange s) :
    (∀ s2 n, incrementTicketNumber s q = Except.ok (s2, n) → InRange s2)
    ∧ (∀ s2 b, resetTicketNumber s q = Except.ok (s2, b) → InRange s2)
    ∧ (∀ s2 b, createQueue s q = Except.ok (s2, b) → InRange s2)
    ∧ (∀ s2 r, getTicket s q = Except.ok (s2, r) → InRange s2) := by
  by_cases hq : q = ""
  · subst hq
    refine ⟨?_, ?_, ?_, ?_⟩ <;> intro s2 x h
    · unfold incrementTicketNumber at h
      rw [if_pos rfl] at h
      exact Except.noConfusion h
    · unfold resetTicketNumber at h
      rw [if_pos rfl] at h
      exact Except.noConfusion h
    · unfold createQueue at h
      rw [if_pos rfl] at h
      exact Except.noConfusion h
    · rw [getTicket_empty_id] at h
      exact Except.noConfusion h
  · refine ⟨?_, ?_, ?_, ?_⟩ <;> intro s2 x h
    · cases hn : s (getQueueKey q) with
      | none =>
          rw [increment_none s q hq hn] at h
          exact Except.noConfusion h
      | some m =>
          rw [increment_some s q m hq hn] at h
          obtain ⟨hm0, hm1⟩ := hs _ _ hn
          have hpair := Prod.mk.inj (Except.ok.inj h)
          rw [← hpair.1]
          refine inRange_set _ _ _ hs ?_ ?_
          · unfold MAX_TICKET_NUMBER
            split <;> omega
          · unfold MAX_TICKET_NUMBER
            unfold MAX_TICKET_NUMBER at hm1
            split <;> omega
    · rw [reset_ok s q hq] at h
      have hpair := Prod.mk.inj (Except.ok.inj h)
      rw [← hpair.1]
      exact inRange_set _ _ _ hs (by decide) (by decide)
    · cases hn : s (getQueueKey q) with
      | none =>
          rw [create_none s q hq hn] at h
          have hpair := Prod.mk.inj (Except.ok.inj h)
          rw [← hpair.1]
          exact inRange_set _ _ _ hs (by decide) (by decide)
      | some m =>
          rw [create_some s q m hq hn] at h
          exact Except.noConfusion h
    · cases hn : s (getQueueKey q) with
      | none =>
          rw [getTicket_none s q hq hn] at h
          have hpair := Prod.mk.inj (Except.ok.inj h)
          rw [← hpair.1]
          exact inRange_set _ _ _ hs (by decide) (by decide)
      | some m =>
          rw [getTicket_some s q m hq hn] at h
          obtain ⟨hm0, hm1⟩ := hs _ _ hn
          have hpair := Prod.mk.inj (Except.ok.inj h)
          rw [← hpair.1]
          obtain ⟨hb0, hb1⟩ := jsMod_10000_bounds (m + 1) (by omega)
          exact inRange_set _ _ _ hs hb0 hb1

/-- Claim C4 witness: the in-range store holding 9999 for one queue stays in
range under every operation. -/
theorem persisted_values_in_range_witness :
    InRange (Store.set emptyStore (getQueueKey "a") 9999)
    ∧ ((∀ s2 n, incrementTicketNumber (Store.set emptyStore (getQueueKey "a") 9999) "a"
          = Except.ok (s2, n) → InRange s2)
       ∧ (∀ s2 b, resetTicketNumber (Store.set emptyStore (getQueueKey "a") 9999) "a"
          = Except.ok (s2, b) → InRange s2)
       ∧ (∀ s2 b, createQueue (Store.set emptyStore (getQueueKey "a") 9999) "a"
          = Except.ok (s2, b) → InRange s2)
       ∧ (∀ s2 r, getTicket (Store.set emptyStore (getQueueKey "a") 9999) "a"
          = Except.ok (s2, r) → InRange s2)) :=
  ⟨inRange_set _ _ _ inRange_empty (by decide) (by decide),
   persisted_values_in_range (Store.set emptyStore (getQueueKey "a") 9999) "a"
     (inRange_set _ _ _ inRange_empty (by decide) (by decide))⟩

/-- Claim C5: counterexample. formatTicketNumber applies no modulo and no
normalization: 10000 renders as the five-character string 10000 and -1 as
00-1, while the rendering the claim describes (decimal of n mod 10000 padded
to width 4, specFormatNumber) gives 0000 and 9999 there; the other cited
formatter, Ticket.formatNumber, rejects out-of-range input instead of
normalizing. -/
theorem format_number_no_modulo :
    formatTicketNumber 10000 = "10000"
    ∧ specFormatNumber 10000 = "0000"
    ∧ formatTicketNumber 10000 ≠ specFormatNumber 10000
    ∧ formatTicketNumber (-1) = "00-1"
    ∧ specFormatNumber (-1) = "9999"
    ∧ Ticket.formatNumber 10000 = Except.error "Invalid ticket number: 10000" :=
  ⟨by decide, by decide, by decide, by decide, by decide, rfl⟩

/-- Claim C5 amended: formatTicketNumber is pure and total on integers, and on
the range the engine actually produces, 0 ≤ n ≤ 9999, it agrees with the
rendering the claim describes (n mod 10000 is n itself there, zero-padded to
width 4); outside that range it pads toString(n) as is, with no modulo and no
normalization of negatives. Ticket.formatNumber returns the same string on the
in-range values. -/
theorem format_number_in_range_agrees (n : Int) (h0 : 0 ≤ n)
    (h1 : n ≤ MAX_TICKET_NUMBER) :
    formatTicketNumber n = specFormatNumber n
    ∧ Ticket.formatNumber n = Except.ok (formatTicketNumber n) := by
  have hmod : n % 10000 = n :=
    Int.emod_eq_of_lt h0 (by unfold MAX_TICKET_NUMBER at h1; omega)
  constructor
  · unfold formatTicketNumber specFormatNumber
    rw [hmod]
  · unfold Ticket.formatNumber formatTicketNumber
    rw [if_neg (by unfold MAX_TICKET_NUMBER at *; omega)]

/-- Claim C5 amended witness: at 42 the code formatter, the claimed rendering
and the Ticket formatter all produce 0042. -/
theorem format_number_in_range_agrees_witness :
    (0:Int) ≤ 42 ∧ (42:Int) ≤ MAX_TICKET_NUMBER
    ∧ (formatTicketNumber 42 = specFormatNumber 42
       ∧ Ticket.formatNumber 42 = Except.ok (formatTicketNumber 42)) :=
  ⟨by decide, by decide, format_number_in_range_agrees 42 (by decide) (by decide)⟩

/-- Claim C6: counterexample. For a queueId with no stored value,
QueueService.getQueueStatus does not return 0000: the source passes null to
formatTicketNumber, null.toString() raises a TypeError and the catch block
rethrows, so the call is an error and in particular never the ok result the
claim describes. -/
theorem status_absent_is_error :
    getQueueStatus emptyStore "other"
        = Except.error "Failed to get status for queue other"
    ∧ ∀ s2 cnt, getQueueStatus emptyStore "other" ≠ Except.ok (s2, "0000", cnt) := by
  constructor
  · rfl
  · intro s2 cnt h
    rw [status_none emptyStore "other" (by decide) rfl] at h
    exact Except.noConfusion h

/-- Claim C6 amended: getQueueStatus never mutates the store — every
successful call returns the input store itself — and for an absent queue it
fails with an error instead of returning 0000; for a stored counter n it
returns the formatted number and the raw count with the store unchanged. -/
theorem status_reads_without_mutation (s : Store) (q : String) (hq : q ≠ "") :
    (∀ n, s (getQueueKey q) = some n →
        getQueueStatus s q = Except.ok (s, formatTicketNumber n, n))
    ∧ (s (getQueueKey q) = none →
        getQueueStatus s q = Except.error ("Failed to get status for queue " ++ q))
    ∧ (∀ s2 cur cnt, getQueueStatus s q = Except.ok (s2, cur, cnt) → s2 = s) := by
  refine ⟨fun n hn => status_some s q n hq hn, fun hn => status_none s q hq hn, ?_⟩
  intro s2 cur cnt h
  cases hn : s (getQueueKey q) with
  | none =>
      rw [status_none s q hq hn] at h
      exact Except.noConfusion h
  | some m =>
      rw [status_some s q m hq hn] at h
      exact ((Prod.mk.inj (Except.ok.inj h)).1).symm

/-- Claim C6 amended witness: a queue holding 7 reports 0007 with count 7 and
the store is returned unchanged. -/
theorem status_reads_without_mutation_witness :
    ("b" : String) ≠ ""
    ∧ ((∀ n, Store.set emptyStore (getQueueKey "b") 7 (getQueueKey "b") = some n →
          getQueueStatus (Store.set emptyStore (getQueueKey "b") 7) "b"
            = Except.ok (Store.set emptyStore (getQueueKey "b") 7, formatTicketNumber n, n))
       ∧ (Store.set emptyStore (getQueueKey "b") 7 (getQueueKey "b") = none →
          getQueueStatus (Store.set emptyStore (getQueueKey "b") 7) "b"
            = Except.error ("Failed to get status for queue " ++ "b"))
       ∧ (∀ s2 cur cnt, getQueueStatus (Store.set emptyStore (getQueueKey "b") 7) "b"
            = Except.ok (s2, cur, cnt) → s2 = Store.set emptyStore (getQueueKey "b") 7)) :=
  ⟨by decide,
   status_reads_without_mutation (Store.set emptyStore (getQueueKey "b") 7) "b" (by decide)⟩

/-- Claim C7: counterexample. After resetTicketNumber persists 0, the next
issue call increments it: getTicket returns 0001 persisting 1, and
incrementTicketNumber returns 1 — not the 0000 the claim states. -/
theorem reset_then_issue_not_zero :
    resetTicketNumber emptyStore "checkout"
        = Except.ok (Store.set emptyStore (getQueueKey "checkout") 0, true)
    ∧ getTicket (Store.set emptyStore (getQueueKey "checkout") 0) "checkout"
        = Except.ok (Store.set (Store.set emptyStore (getQueueKey "checkout") 0)
            (getQueueKey "checkout") 1, "0001")
    ∧ incrementTicketNumber (Store.set emptyStore (getQueueKey "checkout") 0) "checkout"
        = Except.ok (Store.set (Store.set emptyStore (getQueueKey "checkout") 0)
            (getQueueKey "checkout") 1, 1)
    ∧ "0001" ≠ "0000" :=
  ⟨rfl, rfl, rfl, by decide⟩

/-- Claim C7 amended: for every prior stored state and non-empty queueId,
reset unconditionally persists 0 for the queue key (create-or-reset, both in
the repository and in the service wrapper), and the following issue call
returns 0001 and persists 1 — the engine stores the last issued number, so an
issue after reset yields the successor of 0, not 0000. -/
theorem reset_then_issue_is_0001 (s : Store) (q : String) (hq : q ≠ "") :
    resetTicketNumber s q = Except.ok (Store.set s (getQueueKey q) 0, true)
    ∧ Store.set s (getQueueKey q) 0 (getQueueKey q) = some 0
    ∧ resetQueue s q = (Store.set s (getQueueKey q) 0, true)
    ∧ getTicket (Store.set s (getQueueKey q) 0) q
        = Except.ok (Store.set (Store.set s (getQueueKey q) 0) (getQueueKey q) 1,
            formatTicketNumber 1)
    ∧ formatTicketNumber 1 = "0001"
    ∧ incrementTicketNumber (Store.set s (getQueueKey q) 0) q
        = Except.ok (Store.set (Store.set s (getQueueKey q) 0) (getQueueKey q) 1, 1) := by
  refine ⟨reset_ok s q hq, store_set_same s _ 0, rfl, ?_, by decide, ?_⟩
  · rw [getTicket_some (Store.set s (getQueueKey q) 0) q 0 hq (store_set_same s _ 0)]
    rfl
  · rw [increment_some (Store.set s (getQueueKey q) 0) q 0 hq (store_set_same s _ 0)]
    rfl

/-- Claim C7 amended witness: the reset-then-issue run on a fresh store for
queue lane issues ticket 0001. -/
theorem reset_then_issue_is_0001_witness :
    ("lane" : String) ≠ ""
    ∧ (resetTicketNumber emptyStore "lane"
          = Except.ok (Store.set emptyStore (getQueueKey "lane") 0, true)
       ∧ Store.set emptyStore (getQueueKey "lane") 0 (getQueueKey "lane") = some 0
       ∧ resetQueue emptyStore "lane" = (Store.set emptyStore (getQueueKey "lane") 0, true)
       ∧ getTicket (Store.set emptyStore (getQueueKey "lane") 0) "lane"
          = Except.ok (Store.set (Store.set emptyStore (getQueueKey "lane") 0)
              (getQueueKey "lane") 1, formatTicketNumber 1)
       ∧ formatTicketNumber 1 = "0001"
       ∧ incrementTicketNumber (Store.set emptyStore (getQueueKey "lane") 0) "lane"
          = Except.ok (Store.set (Store.set emptyStore (getQueueKey "lane") 0)
              (getQueueKey "lane") 1, 1)) :=
  ⟨by decide, reset_then_issue_is_0001 emptyStore "lane" (by decide)⟩

/-- Claim C8: confirmed. The key construction of the repository is injective
on queueIds, so for distinct queueIds a and b every successful issue, reset or
create for a leaves the stored counter of b exactly as it was. -/
theorem queue_independence (s : Store) (a b : String) (hab : a ≠ b) :
    getQueueKey a ≠ getQueueKey b
    ∧ (∀ s2 r, getTicket s a = Except.ok (s2, r) →
        s2 (getQueueKey b) = s (getQueueKey b))
    ∧ (∀ s2 n, incrementTicketNumber s a = Except.ok (s2, n) →
        s2 (getQueueKey b) = s (getQueueKey b))
    ∧ (∀ s2 c, resetTicketNumber s a = Except.ok (s2, c) →
        s2 (getQueueKey b) = s (getQueueKey b))
    ∧ (∀ s2 c, createQueue s a = Except.ok (s2, c) →
        s2 (getQueueKey b) = s (getQueueKey b)) := by
  have hkey : getQueueKey a ≠ getQueueKey b := fun h => hab (getQueueKey_inj a b h)
  have hob : getQueueKey b ≠ getQueueKey a := fun h => hkey h.symm
  by_cases hqa : a = ""
  · subst hqa
    refine ⟨hkey, ?_, ?_, ?_, ?_⟩ <;> intro s2 x h
    · rw [getTicket_empty_id] at h
      exact Except.noConfusion h
    · unfold incrementTicketNumber at h
      rw [if_pos rfl] at h
      exact Except.noConfusion h
    · unfold resetTicketNumber at h
      rw [if_pos rfl] at h
      exact Except.noConfusion h
    · unfold createQueue at h
      rw [if_pos rfl] at h
      exact Except.noConfusion h
  · refine ⟨hkey, ?_, ?_, ?_, ?_⟩ <;> intro s2 x h
    · cases hn : s (getQueueKey a) with
      | none =>
          rw [getTicket_none s a hqa hn] at h
          rw [← (Prod.mk.inj (Except.ok.inj h)).1]
          exact store_set_other s _ _ _ hob
      | some m =>
          rw [getTicket_some s a m hqa hn] at h
          rw [← (Prod.mk.inj (Except.ok.inj h)).1]
          exact store_set_other s _ _ _ hob
    · cases hn : s (getQueueKey a) with
      | none =>
          rw [increment_none s a hqa hn] at h
          exact Except.noConfusion h
      | some m =>
          rw [increment_some s a m hqa hn] at h
          rw [← (Prod.mk.inj (Except.ok.inj h)).1]
          exact store_set_other s _ _ _ hob
    · rw [reset_ok s a hqa] at h
      rw [← (Prod.mk.inj (Except.ok.inj h)).1]
      exact store_set_other s _ _ _ hob
    · cases hn : s (getQueueKey a) with
      | none =>
          rw [create_none s a hqa hn] at h
          rw [← (Prod.mk.inj (Except.ok.inj h)).1]
          exact store_set_other s _ _ _ hob
      | some m =>
          rw [create_some s a m hqa hn] at h
          exact Except.noConfusion h

/-- Claim C8 witness: on a store holding 3 for queue a and 7 for queue b, the
operations on a leave the counter of b at 7. -/
theorem queue_independence_witness :
    ("a" : String) ≠ "b"
    ∧ (getQueueKey "a" ≠ getQueueKey "b"
       ∧ (∀ s2 r, getTicket (Store.set (Store.set emptyStore (getQueueKey "a") 3)
            (getQueueKey "b") 7) "a" = Except.ok (s2, r) →
          s2 (getQueueKey "b") = Store.set (Store.set emptyStore (getQueueKey "a") 3)
            (getQueueKey "b") 7 (getQueueKey "b"))
       ∧ (∀ s2 n, incrementTicketNumber (Store.set (Store.set emptyStore (getQueueKey "a") 3)
            (getQueueKey "b") 7) "a" = Except.ok (s2, n) →
          s2 (getQueueKey "b") = Store.set (Store.set emptyStore (getQueueKey "a") 3)
            (getQueueKey "b") 7 (getQueueKey "b"))
       ∧ (∀ s2 c, resetTicketNumber (Store.set (Store.set emptyStore (getQueueKey "a") 3)
            (getQueueKey "b") 7) "a" = Except.ok (s2, c) →
          s2 (getQueueKey "b") = Store.set (Store.set emptyStore (getQueueKey "a") 3)
            (getQueueKey "b") 7 (getQueueKey "b"))
       ∧ (∀ s2 c, createQueue (Store.set (Store.set emptyStore (getQueueKey "a") 3)
            (getQueueKey "b") 7) "a" = Except.ok (s2, c) →
          s2 (getQueueKey "b") = Store.set (Store.set emptyStore (getQueueKey "a") 3)
            (getQueueKey "b") 7 (getQueueKey "b"))) :=
  ⟨by decide,
   queue_independence (Store.set (Store.set emptyStore (getQueueKey "a") 3)
     (getQueueKey "b") 7) "a" "b" (by decide)⟩

/-- Claim C9: confirmed. For 0 ≤ n ≤ 9999 and a non-empty queueId,
Ticket.getNextNumber succeeds with a value again in [0, 9999], and
Ticket.createNext builds the ticket for it: the out-of-range rejection branch
of the Ticket constructor is unreachable under the precondition. -/
theorem create_next_never_rejects (q : String) (n : Int) (hq : q ≠ "")
    (h0 : 0 ≤ n) (h1 : n ≤ MAX_TICKET_NUMBER) :
    ∃ m, Ticket.getNextNumber n = Except.ok m
      ∧ 0 ≤ m ∧ m ≤ MAX_TICKET_NUMBER
      ∧ Ticket.createNext q n = Except.ok
          { queueId := q, number := m, formattedNumber := formatTicketNumber m } := by
  refine ⟨if n = MAX_TICKET_NUMBER then 0 else n + 1, getNextNumber_ok n h0 h1, ?_, ?_, ?_⟩
  · unfold MAX_TICKET_NUMBER at *
    split <;> omega
  · unfold MAX_TICKET_NUMBER at *
    split <;> omega
  · rw [createNext_eq q n _ (getNextNumber_ok n h0 h1)]
    refine ticket_create_ok q _ hq ?_ ?_
    · unfold MAX_TICKET_NUMBER at *
      split <;> omega
    · unfold MAX_TICKET_NUMBER at *
      split <;> omega

/-- Claim C9 witness: at the wraparound point 9999 for queue w, the next
number is 0 and createNext returns the 0000 ticket. -/
theorem create_next_never_rejects_witness :
    ("w" : String) ≠ "" ∧ (0:Int) ≤ 9999 ∧ (9999:Int) ≤ MAX_TICKET_NUMBER
    ∧ ∃ m, Ticket.getNextNumber 9999 = Except.ok m
        ∧ 0 ≤ m ∧ m ≤ MAX_TICKET_NUMBER
        ∧ Ticket.createNext "w" 9999 = Except.ok
            { queueId := "w", number := m, formattedNumber := formatTicketNumber m } :=
  ⟨by decide, by decide, by decide,
   create_next_never_rejects "w" 9999 (by decide) (by decide) (by decide)⟩

/-- Claim C10: confirmed. The Redis increment primitive
(RedisStorageAdapter.increment, delegating to INCR) persists and returns the
stored value plus one with no modulo; from 9999 it produces 10000, so the
primitive by itself does not keep counters inside [0, 9999]. -/
theorem redis_increment_unbounded (s : Store) (k : String) (v : Int)
    (hv : s k = some v) (h0 : 0 ≤ v) :
    redisIncrement s k = (Store.set s k (v + 1), v + 1)
    ∧ Store.set s k (v + 1) k = some (v + 1)
    ∧ (MAX_TICKET_NUMBER ≤ v → MAX_TICKET_NUMBER < v + 1) := by
  refine ⟨?_, store_set_same s k (v + 1), fun h => by omega⟩
  unfold redisIncrement
  rw [hv]
  rfl

/-- Claim C10 witness: incrementing a key stored at 9999 yields 10000, above
the ticket range. -/
theorem redis_increment_unbounded_witness :
    Store.set emptyStore "queue:a" 9999 "queue:a" = some 9999
    ∧ (0:Int) ≤ 9999
    ∧ (redisIncrement (Store.set emptyStore "queue:a" 9999) "queue:a"
        = (Store.set (Store.set emptyStore "queue:a" 9999) "queue:a" (9999 + 1), 9999 + 1)
       ∧ Store.set (Store.set emptyStore "queue:a" 9999) "queue:a" (9999 + 1) "queue:a"
          = some (9999 + 1)
       ∧ (MAX_TICKET_NUMBER ≤ (9999:Int) → MAX_TICKET_NUMBER < 9999 + 1)) :=
  ⟨by decide, by decide,
   redis_increment_unbounded (Store.set emptyStore "queue:a" 9999) "queue:a" 9999
     (by decide) (by decide)⟩

end QueueTicket
